import Mathlib

/-!
Verification development for rapids_opt2.py
(ai-platform-samples / xgboost_single_node / gcsfs_localcuda).

The script is sequential orchestration glue: parse arguments, discover the
host IP, start a local CUDA cluster, read CSV/parquet files into a
distributed table, build a quantile device DMatrix, train an XGBoost model,
save it locally and upload it.  We shallow-embed this pipeline as a pure
Lean function producing an event trace plus an explicit outcome and
filesystem state; external library calls (dask, xgboost, gcsfs) appear as
trace events, with a small boundary model of xgb.dask.train where the
claims need its round-count behaviour.  Timing calls (time.time) and
print logging are elided from the traces.
-/

/-- Python "%02d" % i: decimal rendering zero-padded to two digits. -/
def fmt02 (i : Nat) : String :=
  if i < 10 then "0" ++ Nat.repr i else Nat.repr i

/-- Python range(a, b) for a ≤ b. -/
def pyRange (a b : Nat) : List Nat :=
  (List.range (b - a)).map (fun k => a + k)

/-- colnames = ["label"] + ["feature-%02d" % i for i in range(1, 29)]
(rapids_opt2.py line 36). -/
def colnames : List String :=
  ["label"] ++ (pyRange 1 29).map (fun i => "feature-" ++ fmt02 i)

/-- Code-point lexicographic comparison of character lists, the order Python
uses on str and pandas uses when sorting an Index of strings. -/
def charListLe : List Char → List Char → Bool
  | [], _ => true
  | _ :: _, [] => false
  | a :: as, b :: bs =>
    if a.toNat < b.toNat then true
    else if b.toNat < a.toNat then false
    else charListLe as bs

/-- Lexicographic comparison on strings. -/
def strLe (a b : String) : Bool := charListLe a.toList b.toList

/-- Insert a string into a list, keeping strLe-sorted order. -/
def insertSorted (s : String) : List String → List String
  | [] => [s]
  | t :: ts => if strLe s t then s :: t :: ts else t :: insertSorted s ts

/-- Insertion sort on strings (lexicographic). -/
def sortStrings : List String → List String
  | [] => []
  | s :: ss => insertSorted s (sortStrings ss)

/-- Model of df.columns.difference(other) (pandas/cuDF Index.difference):
the elements of cols not in other, deduplicated and sorted. -/
def columns_difference (cols other : List String) : List String :=
  sortStrings ((cols.filter (fun c => !other.contains c)).dedup)

/-- The columns of the feature view X = df[df.columns.difference(["label"])]
(rapids_opt2.py line 42). -/
def X_columns : List String := columns_difference colnames ["label"]

/-- The hyperparameter dictionary passed literally to xgb.dask.train
(rapids_opt2.py lines 67-76).  The float literals 0.1, 0.5, 0.9 are
represented exactly as rationals. -/
structure TrainParams where
  verbosity : Nat
  learning_rate : ℚ
  max_depth : Nat
  objective : String
  subsample : ℚ
  gamma : ℚ
  verbose_eval : Bool
  tree_method : String
  nthread : Nat
deriving DecidableEq

/-- The literal hyperparameter set hard-coded in the train call. -/
def opt2TrainParams : TrainParams :=
  { verbosity := 2
    learning_rate := 1/10
    max_depth := 8
    objective := "reg:squarederror"
    subsample := 1/2
    gamma := 9/10
    verbose_eval := true
    tree_method := "gpu_hist"
    nthread := 1 }

/-- Observable effects of the script, in program order.  Each constructor
records the arguments the script passes to the corresponding library call. -/
inductive Event where
  | readCSV (path : String) (header : Option Nat) (names : List String)
  | readParquet (path : String) (columns : List String)
  | persistDf
  | persistX
  | waitDf
  | waitX
  | buildMatrix (featureCols : List String) (labelCol : String)
  | delDf
  | delX
  | delY
  | trainCall (params : TrainParams) (num_boost_round : Nat)
      (early_stopping_rounds : Option Nat)
  | saveModel (path : String)
  | fsPut (src : String) (dst : String)
  | openCluster (ip : String) (n_workers : Int) (threads_per_worker : Int)
  | openClient
  | closeClient
  | closeCluster
deriving DecidableEq

/-- Contents of a file: the only file this script writes is a serialized
booster, identified by the hyperparameters and round count that produced it. -/
inductive FileData where
  | model (params : TrainParams) (rounds : Nat)
deriving DecidableEq

/-- Uncaught Python exception classes the embedded pipeline can surface. -/
inductive PyErr where
  | argError
  | indexError
  | trainError
  | putError
deriving DecidableEq

/-- The environment the script runs against: the bytes printed by
hostname --all-ip-addresses, whether the training call or the gcsfs put
call raises, the best round the library would pick under early stopping,
and the per-round evaluation metric the training run produces. -/
structure Env where
  hostOutput : String
  trainRaises : Bool
  putRaises : Bool
  stopAt : Nat
  metric : Nat → ℚ

/-- Boundary model of xgb.dask.train: with no early-stopping argument the
library runs exactly num_boost_round rounds and reports one evaluation
metric per round; with early stopping it may stop at an internally chosen
round.  The script always passes early_stopping_rounds absent. -/
def xgbDaskTrain (env : Env) (params : TrainParams) (num_boost_round : Nat)
    (early_stopping_rounds : Option Nat) : FileData × List ℚ :=
  let rounds :=
    match early_stopping_rounds with
    | none => num_boost_round
    | some _ => min num_boost_round env.stopAt
  (FileData.model params rounds, (List.range rounds).map env.metric)

/-- Result of running the pipeline body: the event trace, the outcome
(normal return or uncaught exception), the evaluation history if training
completed, and the final local and remote file systems. -/
structure RunResult where
  trace : List Event
  outcome : Except PyErr Unit
  history : Option (List ℚ)
  localFiles : List (String × FileData)
  remoteFiles : List (String × FileData)

/-- Shallow embedding of using_quantile_device_dmatrix (rapids_opt2.py
lines 30-86): read the table (CSV without header, or parquet selecting
columns by name), form the feature view X and label view y, optionally
persist and wait on df and X, build the DaskDeviceQuantileDMatrix, delete
df, X and y, train for 100 rounds with the literal hyperparameters, save
the booster to /tmp/tmp.model, and upload it with fs.put. -/
def using_quantile_device_dmatrix (env : Env) (train_dir model_file : String)
    (do_wait parquet : Bool) : RunResult :=
  let readEv : Event :=
    if parquet then Event.readParquet train_dir colnames
    else Event.readCSV train_dir none colnames
  let xcols := columns_difference colnames ["label"]
  let waitEvs : List Event :=
    if do_wait then [Event.persistDf, Event.persistX, Event.waitDf, Event.waitX]
    else []
  let pre : List Event :=
    readEv :: waitEvs ++
      [Event.buildMatrix xcols "label", Event.delDf, Event.delX, Event.delY,
       Event.trainCall opt2TrainParams 100 none]
  if env.trainRaises then
    { trace := pre
      outcome := Except.error PyErr.trainError
      history := none
      localFiles := []
      remoteFiles := [] }
  else
    let output := xgbDaskTrain env opt2TrainParams 100 none
    let traceSaved := pre ++ [Event.saveModel "/tmp/tmp.model"]
    let locals : List (String × FileData) := [("/tmp/tmp.model", output.1)]
    if env.putRaises then
      { trace := traceSaved ++ [Event.fsPut "/tmp/tmp.model" model_file]
        outcome := Except.error PyErr.putError
        history := some output.2
        localFiles := locals
        remoteFiles := [] }
    else
      { trace := traceSaved ++ [Event.fsPut "/tmp/tmp.model" model_file]
        outcome := Except.ok ()
        history := some output.2
        localFiles := locals
        remoteFiles := [(model_file, output.1)] }

/-- Worker for pySplit: scan the characters, building the current token in
reverse in acc; a whitespace character ends the current token, and empty
tokens are never emitted. -/
def splitWsAux : List Char → List Char → List String
  | [], acc => if acc.isEmpty then [] else [String.mk acc.reverse]
  | c :: cs, acc =>
    if c.isWhitespace then
      if acc.isEmpty then splitWsAux cs []
      else String.mk acc.reverse :: splitWsAux cs []
    else splitWsAux cs (c :: acc)

/-- Python str.split() with no separator: split on whitespace runs and drop
empty pieces. -/
def pySplit (s : String) : List String :=
  splitWsAux s.toList []

/-- Shallow embedding of get_scheduler_info (rapids_opt2.py lines 88-93):
take the first whitespace-separated token of the hostname output and pair it
with port 8786.  Indexing [0] into an empty token list raises IndexError,
modelled as none. -/
def get_scheduler_info (hostOutput : String) : Option (String × String) :=
  match pySplit hostOutput with
  | [] => none
  | ip :: _ => some (ip, ip ++ ":" ++ "8786")

/-- The resolved argparse namespace (rapids_opt2.py lines 98-122).  argparse
normalizes hyphens in flag names to underscores, so --num--worker is read
back as args.num_worker. -/
structure Args where
  gcp_project : String
  train_files : String
  model_file : String
  num_worker : Int
  threads_per_worker : Int
  do_wait : Bool
  parquet : Bool
deriving DecidableEq

/-- The defaults declared by the add_argument calls. -/
def argDefaults : Args :=
  { gcp_project := "crisp-sa"
    train_files := "gs://crisp-sa/rapids/higgs_csv/*.csv"
    model_file := "gs://crisp-sa/rapids/models/001.model"
    num_worker := 2
    threads_per_worker := 4
    do_wait := false
    parquet := false }

/-- Decimal digit accumulator for pyInt?. -/
def pyNatAux : List Char → Nat → Option Nat
  | [], acc => some acc
  | c :: cs, acc =>
    if 48 ≤ c.toNat ∧ c.toNat ≤ 57 then pyNatAux cs (acc * 10 + (c.toNat - 48))
    else none

/-- Boundary model of the int() conversion argparse applies to type=int
options: an optional leading minus sign (code point 45) followed by at
least one decimal digit; anything else is a conversion error. -/
def pyInt? (s : String) : Option Int :=
  match s.toList with
  | [] => none
  | c :: rest =>
    if c.toNat = 45 then
      match rest with
      | [] => none
      | _ => (pyNatAux rest 0).map (fun n => -(n : Int))
    else (pyNatAux (c :: rest) 0).map (fun n => (n : Int))

/-- A value-taking option that has been seen and is waiting for its value
token. -/
inductive Pending where
  | gcpProject
  | trainFiles
  | modelFile
  | numWorker
  | threadsPerWorker
deriving DecidableEq

/-- One step of the declared argparse surface: consume a single token.
none is a parse error (argparse exits with a usage error).  A store_true
flag updates its field in place; a value-taking option records a Pending
marker and its value is consumed verbatim at the next step, with type=int
options going through integer parsing.  Later occurrences overwrite
earlier ones. -/
def parse_step : Option (Args × Option Pending) → String → Option (Args × Option Pending)
  | none, _ => none
  | some (acc, some Pending.gcpProject), v => some ({ acc with gcp_project := v }, none)
  | some (acc, some Pending.trainFiles), v => some ({ acc with train_files := v }, none)
  | some (acc, some Pending.modelFile), v => some ({ acc with model_file := v }, none)
  | some (acc, some Pending.numWorker), v =>
    match pyInt? v with
    | some n => some ({ acc with num_worker := n }, none)
    | none => none
  | some (acc, some Pending.threadsPerWorker), v =>
    match pyInt? v with
    | some n => some ({ acc with threads_per_worker := n }, none)
    | none => none
  | some (acc, none), t =>
    if t = "--gcp-project" then some (acc, some Pending.gcpProject)
    else if t = "--train-files" then some (acc, some Pending.trainFiles)
    else if t = "--model-file" then some (acc, some Pending.modelFile)
    else if t = "--num--worker" then some (acc, some Pending.numWorker)
    else if t = "--threads-per-worker" then some (acc, some Pending.threadsPerWorker)
    else if t = "--do-wait" then some ({ acc with do_wait := true }, none)
    else if t = "--parquet" then some ({ acc with parquet := true }, none)
    else none

/-- parser.parse_args() over the token list: fold parse_step from the
defaults; a trailing option still waiting for its value is a usage error. -/
def parse_args (argv : List String) (acc : Args) : Option Args :=
  match argv.foldl parse_step (some (acc, none)) with
  | some (r, none) => some r
  | _ => none

/-- Result of the module entry point. -/
structure MainResult where
  trace : List Event
  outcome : Except PyErr Unit
  localFiles : List (String × FileData)
  remoteFiles : List (String × FileData)

/-- Shallow embedding of the module entry point (rapids_opt2.py lines
97-144): parse the arguments, create the gcsfs handle, discover the
scheduler IP, then inside with LocalCUDACluster(...) / with Client(cluster)
run using_quantile_device_dmatrix.  The two with blocks close the client
and then the cluster when the scope exits, whether the body returned
normally or raised; the body outcome propagates. -/
def pyMain (env : Env) (argv : List String) : MainResult :=
  match parse_args argv argDefaults with
  | none =>
    { trace := [], outcome := Except.error PyErr.argError
      localFiles := [], remoteFiles := [] }
  | some args =>
    match get_scheduler_info env.hostOutput with
    | none =>
      { trace := [], outcome := Except.error PyErr.indexError
        localFiles := [], remoteFiles := [] }
    | some si =>
      let r := using_quantile_device_dmatrix env args.train_files args.model_file
        args.do_wait args.parquet
      { trace := Event.openCluster si.1 args.num_worker args.threads_per_worker ::
          Event.openClient :: r.trace ++ [Event.closeClient, Event.closeCluster]
        outcome := r.outcome
        localFiles := r.localFiles
        remoteFiles := r.remoteFiles }

/-- Process exit status: zero on normal completion, non-zero when an
uncaught exception terminates the interpreter. -/
def exitCode (m : MainResult) : Nat :=
  match m.outcome with
  | Except.ok _ => 0
  | Except.error _ => 1

/-- Recognizer for model-save events. -/
def isSaveEvent : Event → Bool
  | Event.saveModel _ => true
  | _ => false

/-- Environment for concrete witnesses: two IPs reported, no failures. -/
def envOk : Env :=
  { hostOutput := "10.128.0.2 172.17.0.1\n"
    trainRaises := false
    putRaises := false
    stopAt := 0
    metric := fun _ => 0 }

/-- Environment in which fs.put raises. -/
def envPutFail : Env := { envOk with putRaises := true }

/-- Environment in which xgb.dask.train raises. -/
def envTrainFail : Env := { envOk with trainRaises := true }

/-! ### Characterization lemmas for the pipeline embedding -/

theorem uqdm_trace_eq (env : Env) (dir mf : String) (dw pq : Bool) :
    (using_quantile_device_dmatrix env dir mf dw pq).trace =
      (if pq then Event.readParquet dir colnames else Event.readCSV dir none colnames) ::
        ((if dw then [Event.persistDf, Event.persistX, Event.waitDf, Event.waitX] else []) ++
          ([Event.buildMatrix X_columns "label", Event.delDf, Event.delX, Event.delY,
            Event.trainCall opt2TrainParams 100 none] ++
            (if env.trainRaises then []
             else [Event.saveModel "/tmp/tmp.model", Event.fsPut "/tmp/tmp.model" mf]))) := by
  cases ht : env.trainRaises <;> cases hp : env.putRaises <;> cases dw <;> cases pq <;>
    simp [using_quantile_device_dmatrix, X_columns, ht, hp]

theorem uqdm_outcome_eq (env : Env) (dir mf : String) (dw pq : Bool) :
    (using_quantile_device_dmatrix env dir mf dw pq).outcome =
      (if env.trainRaises then Except.error PyErr.trainError
       else if env.putRaises then Except.error PyErr.putError
       else Except.ok ()) := by
  cases ht : env.trainRaises <;> cases hp : env.putRaises <;>
    simp [using_quantile_device_dmatrix, ht, hp]

theorem uqdm_history_eq (env : Env) (dir mf : String) (dw pq : Bool) :
    (using_quantile_device_dmatrix env dir mf dw pq).history =
      (if env.trainRaises then none else some ((List.range 100).map env.metric)) := by
  cases ht : env.trainRaises <;> cases hp : env.putRaises <;>
    simp [using_quantile_device_dmatrix, xgbDaskTrain, ht, hp]

theorem uqdm_localFiles_eq (env : Env) (dir mf : String) (dw pq : Bool) :
    (using_quantile_device_dmatrix env dir mf dw pq).localFiles =
      (if env.trainRaises then []
       else [("/tmp/tmp.model", FileData.model opt2TrainParams 100)]) := by
  cases ht : env.trainRaises <;> cases hp : env.putRaises <;>
    simp [using_quantile_device_dmatrix, xgbDaskTrain, ht, hp]

theorem pyMain_eq (env : Env) (argv : List String) (args : Args) (si : String × String)
    (hp : parse_args argv argDefaults = some args)
    (hs : get_scheduler_info env.hostOutput = some si) :
    pyMain env argv =
      { trace := Event.openCluster si.1 args.num_worker args.threads_per_worker ::
          Event.openClient ::
            (using_quantile_device_dmatrix env args.train_files args.model_file
              args.do_wait args.parquet).trace ++ [Event.closeClient, Event.closeCluster]
        outcome := (using_quantile_device_dmatrix env args.train_files args.model_file
          args.do_wait args.parquet).outcome
        localFiles := (using_quantile_device_dmatrix env args.train_files args.model_file
          args.do_wait args.parquet).localFiles
        remoteFiles := (using_quantile_device_dmatrix env args.train_files args.model_file
          args.do_wait args.parquet).remoteFiles } := by
  simp [pyMain, hp, hs]

/-! ### Lemmas about the argument parser -/

theorem foldl_parse_step_none (toks : List String) :
    toks.foldl parse_step none = none := by
  induction toks with
  | nil => rfl
  | cons t rest ih =>
    rw [List.foldl_cons]
    exact ih

theorem parse_step_preserves_nw (st : Args × Option Pending) (t : String)
    (r : Args × Option Pending)
    (hpend : st.2 ≠ some Pending.numWorker)
    (ht : t ≠ "--num--worker")
    (hstep : parse_step (some st) t = some r) :
    r.1.num_worker = st.1.num_worker ∧ r.2 ≠ some Pending.numWorker := by
  obtain ⟨acc, p⟩ := st
  cases p with
  | some q =>
    cases q
    case numWorker => exact absurd rfl hpend
    case gcpProject =>
      simp only [parse_step] at hstep
      injection hstep with hh
      rw [← hh]
      simp
    case trainFiles =>
      simp only [parse_step] at hstep
      injection hstep with hh
      rw [← hh]
      simp
    case modelFile =>
      simp only [parse_step] at hstep
      injection hstep with hh
      rw [← hh]
      simp
    case threadsPerWorker =>
      simp only [parse_step] at hstep
      cases hv : pyInt? t with
      | none => rw [hv] at hstep; simp at hstep
      | some n =>
        rw [hv] at hstep
        injection hstep with hh
        rw [← hh]
        simp
  | none =>
    simp only [parse_step] at hstep
    split_ifs at hstep with h1 h2 h3 h4 h5 h6
    · injection hstep with hh; rw [← hh]; simp
    · injection hstep with hh; rw [← hh]; simp
    · injection hstep with hh; rw [← hh]; simp
    · injection hstep with hh; rw [← hh]; simp
    · injection hstep with hh; rw [← hh]; simp
    · injection hstep with hh; rw [← hh]; simp

theorem parse_step_preserves_tpw (st : Args × Option Pending) (t : String)
    (r : Args × Option Pending)
    (hpend : st.2 ≠ some Pending.threadsPerWorker)
    (ht : t ≠ "--threads-per-worker")
    (hstep : parse_step (some st) t = some r) :
    r.1.threads_per_worker = st.1.threads_per_worker ∧
      r.2 ≠ some Pending.threadsPerWorker := by
  obtain ⟨acc, p⟩ := st
  cases p with
  | some q =>
    cases q
    case threadsPerWorker => exact absurd rfl hpend
    case gcpProject =>
      simp only [parse_step] at hstep
      injection hstep with hh
      rw [← hh]
      simp
    case trainFiles =>
      simp only [parse_step] at hstep
      injection hstep with hh
      rw [← hh]
      simp
    case modelFile =>
      simp only [parse_step] at hstep
      injection hstep with hh
      rw [← hh]
      simp
    case numWorker =>
      simp only [parse_step] at hstep
      cases hv : pyInt? t with
      | none => rw [hv] at hstep; simp at hstep
      | some n =>
        rw [hv] at hstep
        injection hstep with hh
        rw [← hh]
        simp
  | none =>
    simp only [parse_step] at hstep
    split_ifs at hstep with h1 h2 h3 h4 h5 h6
    · injection hstep with hh; rw [← hh]; simp
    · injection hstep with hh; rw [← hh]; simp
    · injection hstep with hh; rw [← hh]; simp
    · injection hstep with hh; rw [← hh]; simp
    · injection hstep with hh; rw [← hh]; simp
    · injection hstep with hh; rw [← hh]; simp

theorem foldl_preserves_nw (toks : List String) (hmem : "--num--worker" ∉ toks) :
    ∀ (st r : Args × Option Pending), st.2 ≠ some Pending.numWorker →
    toks.foldl parse_step (some st) = some r →
    r.1.num_worker = st.1.num_worker ∧ r.2 ≠ some Pending.numWorker := by
  induction toks with
  | nil =>
    intro st r hpend hf
    rw [List.foldl_nil] at hf
    injection hf with hh
    rw [← hh]
    exact ⟨rfl, hpend⟩
  | cons t rest ih =>
    intro st r hpend hf
    rw [List.foldl_cons] at hf
    cases hstep : parse_step (some st) t with
    | none =>
      rw [hstep, foldl_parse_step_none] at hf
      simp at hf
    | some st2 =>
      rw [hstep] at hf
      have ht : t ≠ "--num--worker" := by
        intro hEq
        exact hmem (by rw [← hEq]; exact List.mem_cons_self t rest)
      have h2 := parse_step_preserves_nw st t st2 hpend ht hstep
      have h3 := ih (fun hm => hmem (List.mem_cons_of_mem _ hm)) st2 r h2.2 hf
      exact ⟨h3.1.trans h2.1, h3.2⟩

theorem foldl_preserves_tpw (toks : List String)
    (hmem : "--threads-per-worker" ∉ toks) :
    ∀ (st r : Args × Option Pending), st.2 ≠ some Pending.threadsPerWorker →
    toks.foldl parse_step (some st) = some r →
    r.1.threads_per_worker = st.1.threads_per_worker ∧
      r.2 ≠ some Pending.threadsPerWorker := by
  induction toks with
  | nil =>
    intro st r hpend hf
    rw [List.foldl_nil] at hf
    injection hf with hh
    rw [← hh]
    exact ⟨rfl, hpend⟩
  | cons t rest ih =>
    intro st r hpend hf
    rw [List.foldl_cons] at hf
    cases hstep : parse_step (some st) t with
    | none =>
      rw [hstep, foldl_parse_step_none] at hf
      simp at hf
    | some st2 =>
      rw [hstep] at hf
      have ht : t ≠ "--threads-per-worker" := by
        intro hEq
        exact hmem (by rw [← hEq]; exact List.mem_cons_self t rest)
      have h2 := parse_step_preserves_tpw st t st2 hpend ht hstep
      have h3 := ih (fun hm => hmem (List.mem_cons_of_mem _ hm)) st2 r h2.2 hf
      exact ⟨h3.1.trans h2.1, h3.2⟩

theorem parse_args_foldl (argv : List String) (acc r : Args)
    (h : parse_args argv acc = some r) :
    argv.foldl parse_step (some (acc, none)) = some (r, none) := by
  unfold parse_args at h
  cases hf : argv.foldl parse_step (some (acc, none)) with
  | none => rw [hf] at h; simp at h
  | some pr =>
    obtain ⟨a, p⟩ := pr
    rw [hf] at h
    cases p with
    | none => simp at h; rw [h]
    | some q => simp at h

theorem parse_args_append (t1 t2 : List String) (acc r : Args)
    (h : parse_args t1 acc = some r) :
    parse_args (t1 ++ t2) acc = parse_args t2 r := by
  have hf := parse_args_foldl t1 acc r h
  unfold parse_args
  rw [List.foldl_append, hf]

theorem parse_args_set_nw (argv : List String) (r : Args) (v : String) (n : Int)
    (h : parse_args argv argDefaults = some r) (hv : pyInt? v = some n) :
    parse_args (argv ++ ["--num--worker", v]) argDefaults =
      some { r with num_worker := n } := by
  rw [parse_args_append argv _ argDefaults r h]
  unfold parse_args
  rw [List.foldl_cons, List.foldl_cons, List.foldl_nil]
  simp [parse_step, hv]

theorem parse_args_set_tpw (argv : List String) (r : Args) (v : String) (n : Int)
    (h : parse_args argv argDefaults = some r) (hv : pyInt? v = some n) :
    parse_args (argv ++ ["--threads-per-worker", v]) argDefaults =
      some { r with threads_per_worker := n } := by
  rw [parse_args_append argv _ argDefaults r h]
  unfold parse_args
  rw [List.foldl_cons, List.foldl_cons, List.foldl_nil]
  simp [parse_step, hv]

theorem pyInt_ne_flag (v : String) (n : Int) (hv : pyInt? v = some n) :
    v ≠ "--gcp-project" ∧ v ≠ "--train-files" ∧ v ≠ "--model-file" ∧
    v ≠ "--num--worker" ∧ v ≠ "--threads-per-worker" ∧ v ≠ "--do-wait" ∧
    v ≠ "--parquet" := by
  refine ⟨?_, ?_, ?_, ?_, ?_, ?_, ?_⟩
  · rintro rfl; rw [show pyInt? "--gcp-project" = none from rfl] at hv; cases hv
  · rintro rfl; rw [show pyInt? "--train-files" = none from rfl] at hv; cases hv
  · rintro rfl; rw [show pyInt? "--model-file" = none from rfl] at hv; cases hv
  · rintro rfl; rw [show pyInt? "--num--worker" = none from rfl] at hv; cases hv
  · rintro rfl; rw [show pyInt? "--threads-per-worker" = none from rfl] at hv; cases hv
  · rintro rfl; rw [show pyInt? "--do-wait" = none from rfl] at hv; cases hv
  · rintro rfl; rw [show pyInt? "--parquet" = none from rfl] at hv; cases hv

theorem parse_step_int_token_dispatch (a : Args) (v : String) (n : Int)
    (hv : pyInt? v = some n) :
    parse_step (some (a, none)) v = none := by
  obtain ⟨h1, h2, h3, h4, h5, h6, h7⟩ := pyInt_ne_flag v n hv
  simp only [parse_step]
  rw [if_neg h1, if_neg h2, if_neg h3, if_neg h4, if_neg h5, if_neg h6, if_neg h7]

theorem parse_args_mid_nw (l1 : List String) (v : String) (l2 : List String)
    (r : Args) (n : Int)
    (h : parse_args (l1 ++ "--num--worker" :: v :: l2) argDefaults = some r)
    (hmem : "--num--worker" ∉ l2)
    (hv : pyInt? v = some n) :
    r.num_worker = n := by
  have hf := parse_args_foldl _ argDefaults r h
  rw [List.foldl_append] at hf
  cases hst : l1.foldl parse_step (some (argDefaults, none)) with
  | none =>
    rw [hst, foldl_parse_step_none] at hf
    cases hf
  | some st =>
    obtain ⟨a, p⟩ := st
    rw [hst, List.foldl_cons] at hf
    cases p with
    | none =>
      rw [show parse_step (some (a, none)) "--num--worker" =
        some (a, some Pending.numWorker) from by simp [parse_step]] at hf
      rw [List.foldl_cons] at hf
      rw [show parse_step (some (a, some Pending.numWorker)) v =
        some ({ a with num_worker := n }, none) from by simp [parse_step, hv]] at hf
      have h2 := foldl_preserves_nw l2 hmem ({ a with num_worker := n }, none)
        (r, none) (by simp) hf
      simpa using h2.1
    | some q =>
      cases q
      case gcpProject =>
        rw [show parse_step (some (a, some Pending.gcpProject)) "--num--worker" =
          some ({ a with gcp_project := "--num--worker" }, none) from rfl] at hf
        rw [List.foldl_cons, parse_step_int_token_dispatch _ v n hv,
          foldl_parse_step_none] at hf
        cases hf
      case trainFiles =>
        rw [show parse_step (some (a, some Pending.trainFiles)) "--num--worker" =
          some ({ a with train_files := "--num--worker" }, none) from rfl] at hf
        rw [List.foldl_cons, parse_step_int_token_dispatch _ v n hv,
          foldl_parse_step_none] at hf
        cases hf
      case modelFile =>
        rw [show parse_step (some (a, some Pending.modelFile)) "--num--worker" =
          some ({ a with model_file := "--num--worker" }, none) from rfl] at hf
        rw [List.foldl_cons, parse_step_int_token_dispatch _ v n hv,
          foldl_parse_step_none] at hf
        cases hf
      case numWorker =>
        rw [show parse_step (some (a, some Pending.numWorker)) "--num--worker" =
          none from rfl] at hf
        rw [foldl_parse_step_none] at hf
        cases hf
      case threadsPerWorker =>
        rw [show parse_step (some (a, some Pending.threadsPerWorker)) "--num--worker" =
          none from rfl] at hf
        rw [foldl_parse_step_none] at hf
        cases hf

theorem parse_args_mid_tpw (l1 : List String) (v : String) (l2 : List String)
    (r : Args) (n : Int)
    (h : parse_args (l1 ++ "--threads-per-worker" :: v :: l2) argDefaults = some r)
    (hmem : "--threads-per-worker" ∉ l2)
    (hv : pyInt? v = some n) :
    r.threads_per_worker = n := by
  have hf := parse_args_foldl _ argDefaults r h
  rw [List.foldl_append] at hf
  cases hst : l1.foldl parse_step (some (argDefaults, none)) with
  | none =>
    rw [hst, foldl_parse_step_none] at hf
    cases hf
  | some st =>
    obtain ⟨a, p⟩ := st
    rw [hst, List.foldl_cons] at hf
    cases p with
    | none =>
      rw [show parse_step (some (a, none)) "--threads-per-worker" =
        some (a, some Pending.threadsPerWorker) from by simp [parse_step]] at hf
      rw [List.foldl_cons] at hf
      rw [show parse_step (some (a, some Pending.threadsPerWorker)) v =
        some ({ a with threads_per_worker := n }, none) from by simp [parse_step, hv]] at hf
      have h2 := foldl_preserves_tpw l2 hmem ({ a with threads_per_worker := n }, none)
        (r, none) (by simp) hf
      simpa using h2.1
    | some q =>
      cases q
      case gcpProject =>
        rw [show parse_step (some (a, some Pending.gcpProject)) "--threads-per-worker" =
          some ({ a with gcp_project := "--threads-per-worker" }, none) from rfl] at hf
        rw [List.foldl_cons, parse_step_int_token_dispatch _ v n hv,
          foldl_parse_step_none] at hf
        cases hf
      case trainFiles =>
        rw [show parse_step (some (a, some Pending.trainFiles)) "--threads-per-worker" =
          some ({ a with train_files := "--threads-per-worker" }, none) from rfl] at hf
        rw [List.foldl_cons, parse_step_int_token_dispatch _ v n hv,
          foldl_parse_step_none] at hf
        cases hf
      case modelFile =>
        rw [show parse_step (some (a, some Pending.modelFile)) "--threads-per-worker" =
          some ({ a with model_file := "--threads-per-worker" }, none) from rfl] at hf
        rw [List.foldl_cons, parse_step_int_token_dispatch _ v n hv,
          foldl_parse_step_none] at hf
        cases hf
      case numWorker =>
        rw [show parse_step (some (a, some Pending.numWorker)) "--threads-per-worker" =
          none from rfl] at hf
        rw [foldl_parse_step_none] at hf
        cases hf
      case threadsPerWorker =>
        rw [show parse_step (some (a, some Pending.threadsPerWorker)) "--threads-per-worker" =
          none from rfl] at hf
        rw [foldl_parse_step_none] at hf
        cases hf

/-! ### Claim theorems -/

/-- C1: for every invocation, when the parquet flag is absent the loader
reads delimited text with no header row and exactly the 29 named columns
(label followed by feature-01 .. feature-28), and when the flag is present
it reads the columnar format selecting by name exactly the same 29-column
set; the other format is never requested. -/
theorem C1_loader_schema :
    (∀ (env : Env) (dir mf : String) (dw : Bool),
      (using_quantile_device_dmatrix env dir mf dw false).trace.head? =
        some (Event.readCSV dir none colnames)) ∧
    (∀ (env : Env) (dir mf : String) (dw : Bool),
      (using_quantile_device_dmatrix env dir mf dw true).trace.head? =
        some (Event.readParquet dir colnames)) ∧
    (∀ (env : Env) (dir mf p : String) (dw : Bool) (c : List String),
      Event.readParquet p c ∉ (using_quantile_device_dmatrix env dir mf dw false).trace) ∧
    (∀ (env : Env) (dir mf p : String) (dw : Bool) (h : Option Nat) (c : List String),
      Event.readCSV p h c ∉ (using_quantile_device_dmatrix env dir mf dw true).trace) ∧
    colnames.length = 29 ∧
    colnames =
      ["label", "feature-01", "feature-02", "feature-03", "feature-04", "feature-05",
       "feature-06", "feature-07", "feature-08", "feature-09", "feature-10", "feature-11",
       "feature-12", "feature-13", "feature-14", "feature-15", "feature-16", "feature-17",
       "feature-18", "feature-19", "feature-20", "feature-21", "feature-22", "feature-23",
       "feature-24", "feature-25", "feature-26", "feature-27", "feature-28"] := by
  refine ⟨?_, ?_, ?_, ?_, by rfl, by rfl⟩
  · intro env dir mf dw
    rw [uqdm_trace_eq]
    simp
  · intro env dir mf dw
    rw [uqdm_trace_eq]
    simp
  · intro env dir mf p dw c
    rw [uqdm_trace_eq]
    cases dw <;> cases ht : env.trainRaises <;> simp
  · intro env dir mf p dw h c
    rw [uqdm_trace_eq]
    cases dw <;> cases ht : env.trainRaises <;> simp

/-- C1 witness: on the concrete environment envOk the CSV-mode head event
is the delimited-text read with the 29 hard-coded column names. -/
theorem C1_loader_schema_witness :
    (using_quantile_device_dmatrix envOk "gs://d/*.csv" "gs://m" false false).trace.head? =
      some (Event.readCSV "gs://d/*.csv" none colnames) :=
  C1_loader_schema.1 envOk "gs://d/*.csv" "gs://m" false

/-- C2: for every invocation, the trainer is called with the fixed
hard-coded hyperparameter set and round count 100 and no early-stopping
argument; every train call in the trace carries exactly those arguments;
and when training completes, the run returns a per-round metric history of
exactly the full 100 configured rounds. -/
theorem C2_trainer_full_rounds :
    ∀ (env : Env) (dir mf : String) (dw pq : Bool),
      (∃ l1 l2, (using_quantile_device_dmatrix env dir mf dw pq).trace =
        l1 ++ Event.trainCall opt2TrainParams 100 none :: l2) ∧
      (∀ (p : TrainParams) (n : Nat) (es : Option Nat),
        Event.trainCall p n es ∈ (using_quantile_device_dmatrix env dir mf dw pq).trace →
          p = opt2TrainParams ∧ n = 100 ∧ es = none) ∧
      (env.trainRaises = false →
        (using_quantile_device_dmatrix env dir mf dw pq).history =
          some ((List.range 100).map env.metric) ∧
        ((List.range 100).map env.metric).length = 100) := by
  intro env dir mf dw pq
  refine ⟨?_, ?_, ?_⟩
  · refine ⟨(if pq then Event.readParquet dir colnames else Event.readCSV dir none colnames) ::
      ((if dw then [Event.persistDf, Event.persistX, Event.waitDf, Event.waitX] else []) ++
        [Event.buildMatrix X_columns "label", Event.delDf, Event.delX, Event.delY]),
      (if env.trainRaises then []
       else [Event.saveModel "/tmp/tmp.model", Event.fsPut "/tmp/tmp.model" mf]), ?_⟩
    rw [uqdm_trace_eq]
    simp
  · intro p n es h
    rw [uqdm_trace_eq] at h
    cases pq <;> cases dw <;> cases ht : env.trainRaises <;> rw [ht] at h <;>
      simp at h <;> exact ⟨h.1, h.2.1, h.2.2⟩
  · intro ht
    rw [uqdm_history_eq, ht]
    simp

/-- C2 witness: on envOk (training succeeds) the history is exactly the 100
per-round metrics. -/
theorem C2_trainer_full_rounds_witness :
    (using_quantile_device_dmatrix envOk "d" "m" false false).history =
      some ((List.range 100).map envOk.metric) ∧
    ((List.range 100).map envOk.metric).length = 100 :=
  (C2_trainer_full_rounds envOk "d" "m" false false).2.2 rfl

/-- C3: if fs.put raises after the local model write succeeded, the process
terminates with a non-zero exit code, the error propagates uncaught as the
put error, and the local scratch model file still holds the just-written
model. -/
theorem C3_upload_failure (env : Env) (argv : List String) (args : Args)
    (si : String × String)
    (hp : parse_args argv argDefaults = some args)
    (hs : get_scheduler_info env.hostOutput = some si)
    (ht : env.trainRaises = false) (hput : env.putRaises = true) :
    exitCode (pyMain env argv) ≠ 0 ∧
    (pyMain env argv).outcome = Except.error PyErr.putError ∧
    (pyMain env argv).localFiles.lookup "/tmp/tmp.model" =
      some (FileData.model opt2TrainParams 100) := by
  rw [pyMain_eq env argv args si hp hs]
  refine ⟨?_, ?_, ?_⟩
  · simp [exitCode, uqdm_outcome_eq, ht, hput]
  · simp [uqdm_outcome_eq, ht, hput]
  · simp [uqdm_localFiles_eq, ht, List.lookup]

/-- C3 witness: concrete failing-put run with default arguments. -/
theorem C3_upload_failure_witness :
    exitCode (pyMain envPutFail []) ≠ 0 ∧
    (pyMain envPutFail []).outcome = Except.error PyErr.putError ∧
    (pyMain envPutFail []).localFiles.lookup "/tmp/tmp.model" =
      some (FileData.model opt2TrainParams 100) :=
  C3_upload_failure envPutFail [] argDefaults ("10.128.0.2", "10.128.0.2:8786")
    (by rfl) (by rfl) rfl rfl

/-- C4: with the wait flag set, the persist and wait steps on the full table
and on its feature sub-table all occur before the training matrix is
constructed; with the flag unset, no persist or wait event occurs at all. -/
theorem C4_wait_before_matrix :
    ∀ (env : Env) (dir mf : String) (pq : Bool),
      (∃ l1 l2, (using_quantile_device_dmatrix env dir mf true pq).trace =
          l1 ++ Event.buildMatrix X_columns "label" :: l2 ∧
        Event.persistDf ∈ l1 ∧ Event.persistX ∈ l1 ∧
        Event.waitDf ∈ l1 ∧ Event.waitX ∈ l1) ∧
      (Event.persistDf ∉ (using_quantile_device_dmatrix env dir mf false pq).trace ∧
       Event.persistX ∉ (using_quantile_device_dmatrix env dir mf false pq).trace ∧
       Event.waitDf ∉ (using_quantile_device_dmatrix env dir mf false pq).trace ∧
       Event.waitX ∉ (using_quantile_device_dmatrix env dir mf false pq).trace) := by
  intro env dir mf pq
  constructor
  · refine ⟨(if pq then Event.readParquet dir colnames else Event.readCSV dir none colnames) ::
      [Event.persistDf, Event.persistX, Event.waitDf, Event.waitX],
      Event.delDf :: Event.delX :: Event.delY :: Event.trainCall opt2TrainParams 100 none ::
        (if env.trainRaises then []
         else [Event.saveModel "/tmp/tmp.model", Event.fsPut "/tmp/tmp.model" mf]),
      ?_, by simp, by simp, by simp, by simp⟩
    rw [uqdm_trace_eq]
    simp
  · refine ⟨?_, ?_, ?_, ?_⟩ <;>
      · rw [uqdm_trace_eq]
        cases pq <;> cases ht : env.trainRaises <;> simp

/-- C4 witness: with the wait flag unset on envOk, no persist event occurs. -/
theorem C4_wait_before_matrix_witness :
    Event.persistDf ∉ (using_quantile_device_dmatrix envOk "d" "m" false false).trace :=
  ((C4_wait_before_matrix envOk "d" "m" false).2).1

/-- C5: for any host IP query output with at least one whitespace-separated
token, the scheduler endpoint is the first token concatenated with the
fixed port suffix. -/
theorem C5_scheduler_uri (out ip : String) (rest : List String)
    (h : pySplit out = ip :: rest) :
    get_scheduler_info out = some (ip, ip ++ ":8786") := by
  unfold get_scheduler_info
  rw [h]
  show some (ip, ip ++ ":" ++ "8786") = some (ip, ip ++ ":8786")
  rw [String.append_assoc]
  rfl

/-- C5 witness: a two-address hostname output yields the first address with
port 8786. -/
theorem C5_scheduler_uri_witness :
    get_scheduler_info "10.128.0.2 172.17.0.1\n" =
      some ("10.128.0.2", "10.128.0.2" ++ ":8786") :=
  C5_scheduler_uri "10.128.0.2 172.17.0.1\n" "10.128.0.2" ["172.17.0.1"] (by rfl)

/-- C6: on every successful run, the model is saved to exactly one file, at
the fixed local scratch path /tmp/tmp.model, and that save precedes the
upload to the configured remote destination. -/
theorem C6_single_save_before_upload (env : Env) (dir mf : String) (dw pq : Bool)
    (h : (using_quantile_device_dmatrix env dir mf dw pq).outcome = Except.ok ()) :
    (using_quantile_device_dmatrix env dir mf dw pq).trace.filter isSaveEvent =
      [Event.saveModel "/tmp/tmp.model"] ∧
    ∃ l1 l2 l3, (using_quantile_device_dmatrix env dir mf dw pq).trace =
      l1 ++ Event.saveModel "/tmp/tmp.model" :: l2 ++
        Event.fsPut "/tmp/tmp.model" mf :: l3 := by
  have ht : env.trainRaises = false := by
    rw [uqdm_outcome_eq] at h
    cases h2 : env.trainRaises
    · rfl
    · rw [h2] at h; simp at h
  constructor
  · rw [uqdm_trace_eq, ht]
    cases pq <;> cases dw <;> simp [isSaveEvent]
  · refine ⟨(if pq then Event.readParquet dir colnames else Event.readCSV dir none colnames) ::
      ((if dw then [Event.persistDf, Event.persistX, Event.waitDf, Event.waitX] else []) ++
        [Event.buildMatrix X_columns "label", Event.delDf, Event.delX, Event.delY,
         Event.trainCall opt2TrainParams 100 none]), [], [], ?_⟩
    rw [uqdm_trace_eq, ht]
    simp

/-- C6 witness: a concrete successful run saves exactly once at the scratch
path. -/
theorem C6_single_save_before_upload_witness :
    (using_quantile_device_dmatrix envOk "d" "m" false false).trace.filter isSaveEvent =
      [Event.saveModel "/tmp/tmp.model"] :=
  (C6_single_save_before_upload envOk "d" "m" false false (by rfl)).1

/-- C7: in every execution that reaches matrix construction, the source
table and its feature and label views are deleted immediately after the
matrix is built and before the training call. -/
theorem C7_discard_before_training :
    ∀ (env : Env) (dir mf : String) (dw pq : Bool),
      ∃ l1 l3, (using_quantile_device_dmatrix env dir mf dw pq).trace =
        l1 ++ Event.buildMatrix X_columns "label" :: Event.delDf :: Event.delX ::
          Event.delY :: Event.trainCall opt2TrainParams 100 none :: l3 := by
  intro env dir mf dw pq
  rw [uqdm_trace_eq]
  refine ⟨(if pq then Event.readParquet dir colnames else Event.readCSV dir none colnames) ::
    (if dw then [Event.persistDf, Event.persistX, Event.waitDf, Event.waitX] else []),
    (if env.trainRaises then []
     else [Event.saveModel "/tmp/tmp.model", Event.fsPut "/tmp/tmp.model" mf]), ?_⟩
  simp

/-- C8: whenever the main scope is entered, the client and the cluster are
closed, in that order, as the last two events of the run, and the body
outcome (normal or error) propagates unchanged; this holds for every
environment, including ones where training raises. -/
theorem C8_scoped_teardown (env : Env) (argv : List String) (args : Args)
    (si : String × String)
    (hp : parse_args argv argDefaults = some args)
    (hs : get_scheduler_info env.hostOutput = some si) :
    ∃ inner,
      (pyMain env argv).trace =
        Event.openCluster si.1 args.num_worker args.threads_per_worker ::
          Event.openClient :: inner ++ [Event.closeClient, Event.closeCluster] ∧
      inner = (using_quantile_device_dmatrix env args.train_files args.model_file
        args.do_wait args.parquet).trace ∧
      (pyMain env argv).outcome =
        (using_quantile_device_dmatrix env args.train_files args.model_file
          args.do_wait args.parquet).outcome := by
  rw [pyMain_eq env argv args si hp hs]
  exact ⟨_, rfl, rfl, rfl⟩

/-- C8 witness: teardown events close the trace even when training raises. -/
theorem C8_scoped_teardown_witness :
    (pyMain envTrainFail []).trace =
      Event.openCluster "10.128.0.2" 2 4 :: Event.openClient ::
        (using_quantile_device_dmatrix envTrainFail argDefaults.train_files
          argDefaults.model_file argDefaults.do_wait argDefaults.parquet).trace ++
        [Event.closeClient, Event.closeCluster] := by
  obtain ⟨inner, h1, h2, h3⟩ := C8_scoped_teardown envTrainFail [] argDefaults
    ("10.128.0.2", "10.128.0.2:8786") (by rfl) (by rfl)
  rw [← h2]
  exact h1

/-- C9: for every valid command-line input, the resolved worker count and
threads-per-worker count default to 2 and 4 when the flags are absent, and
equal the literal integer supplied when the flag is given, at any position
in the command line: whenever the input decomposes at the last occurrence
of the flag followed by a value token that parses as the integer n, the
resolved count is n (argparse resolves repeated flags last-wins); appending
the flag and a value likewise overrides any earlier setting. -/
theorem C9_cli_counts :
    (argDefaults.num_worker = 2 ∧ argDefaults.threads_per_worker = 4) ∧
    (∀ (argv : List String) (r : Args), parse_args argv argDefaults = some r →
      "--num--worker" ∉ argv → r.num_worker = 2) ∧
    (∀ (argv : List String) (r : Args), parse_args argv argDefaults = some r →
      "--threads-per-worker" ∉ argv → r.threads_per_worker = 4) ∧
    (∀ (l1 : List String) (v : String) (l2 : List String) (r : Args) (n : Int),
      parse_args (l1 ++ "--num--worker" :: v :: l2) argDefaults = some r →
      "--num--worker" ∉ l2 → pyInt? v = some n →
      r.num_worker = n) ∧
    (∀ (l1 : List String) (v : String) (l2 : List String) (r : Args) (n : Int),
      parse_args (l1 ++ "--threads-per-worker" :: v :: l2) argDefaults = some r →
      "--threads-per-worker" ∉ l2 → pyInt? v = some n →
      r.threads_per_worker = n) ∧
    (∀ (argv : List String) (r : Args) (v : String) (n : Int),
      parse_args argv argDefaults = some r → pyInt? v = some n →
      parse_args (argv ++ ["--num--worker", v]) argDefaults =
        some { r with num_worker := n }) ∧
    (∀ (argv : List String) (r : Args) (v : String) (n : Int),
      parse_args argv argDefaults = some r → pyInt? v = some n →
      parse_args (argv ++ ["--threads-per-worker", v]) argDefaults =
        some { r with threads_per_worker := n }) := by
  refine ⟨⟨rfl, rfl⟩, ?_, ?_, ?_, ?_, ?_, ?_⟩
  · intro argv r h hmem
    have hf := parse_args_foldl argv argDefaults r h
    have h2 := foldl_preserves_nw argv hmem (argDefaults, none) (r, none) (by simp) hf
    simpa using h2.1
  · intro argv r h hmem
    have hf := parse_args_foldl argv argDefaults r h
    have h2 := foldl_preserves_tpw argv hmem (argDefaults, none) (r, none) (by simp) hf
    simpa using h2.1
  · intro l1 v l2 r n h hmem hv
    exact parse_args_mid_nw l1 v l2 r n h hmem hv
  · intro l1 v l2 r n h hmem hv
    exact parse_args_mid_tpw l1 v l2 r n h hmem hv
  · intro argv r v n h hv
    exact parse_args_set_nw argv r v n h hv
  · intro argv r v n h hv
    exact parse_args_set_tpw argv r v n h hv

/-- C9 witness: supplying --num--worker 7 resolves to 7, both appended at
the end and in mid position with a later unrelated flag; omitting it (here
with only --parquet) leaves the default 2. -/
theorem C9_cli_counts_witness :
    parse_args ["--num--worker", "7"] argDefaults =
      some { argDefaults with num_worker := 7 } ∧
    ({ argDefaults with num_worker := 7, parquet := true } : Args).num_worker = 7 ∧
    ({ argDefaults with parquet := true } : Args).num_worker = 2 := by
  refine ⟨?_, ?_, ?_⟩
  · have h := C9_cli_counts.2.2.2.2.2.1 [] argDefaults "7" 7 (by rfl) (by rfl)
    simpa using h
  · exact C9_cli_counts.2.2.2.1 [] "7" ["--parquet"]
      { argDefaults with num_worker := 7, parquet := true } 7 (by rfl) (by decide) (by rfl)
  · exact C9_cli_counts.2.1 ["--parquet"] { argDefaults with parquet := true }
      (by rfl) (by decide)

/-- C10: in both input formats, the feature view handed to the matrix
builder is the sorted set-difference of the column set with the label
column: it never contains label, and is exactly the 28 feature columns in
lexicographically sorted order. -/
theorem C10_feature_view_columns :
    (∀ (env : Env) (dir mf : String) (dw pq : Bool),
      Event.buildMatrix X_columns "label" ∈
        (using_quantile_device_dmatrix env dir mf dw pq).trace) ∧
    X_columns = columns_difference colnames ["label"] ∧
    X_columns =
      ["feature-01", "feature-02", "feature-03", "feature-04", "feature-05", "feature-06",
       "feature-07", "feature-08", "feature-09", "feature-10", "feature-11", "feature-12",
       "feature-13", "feature-14", "feature-15", "feature-16", "feature-17", "feature-18",
       "feature-19", "feature-20", "feature-21", "feature-22", "feature-23", "feature-24",
       "feature-25", "feature-26", "feature-27", "feature-28"] ∧
    "label" ∉ X_columns ∧
    X_columns.length = 28 ∧
    List.Sorted (fun a b : String => a ≤ b) X_columns := by
  refine ⟨?_, rfl, by rfl, by decide, by rfl, ?_⟩
  · intro env dir mf dw pq
    rw [uqdm_trace_eq]
    simp
  · have hx : X_columns =
      ["feature-01", "feature-02", "feature-03", "feature-04", "feature-05", "feature-06",
       "feature-07", "feature-08", "feature-09", "feature-10", "feature-11", "feature-12",
       "feature-13", "feature-14", "feature-15", "feature-16", "feature-17", "feature-18",
       "feature-19", "feature-20", "feature-21", "feature-22", "feature-23", "feature-24",
       "feature-25", "feature-26", "feature-27", "feature-28"] := by rfl
    rw [hx]
    have hp : List.Pairwise (fun a b : String => a.toList ≤ b.toList)
      ["feature-01", "feature-02", "feature-03", "feature-04", "feature-05", "feature-06",
       "feature-07", "feature-08", "feature-09", "feature-10", "feature-11", "feature-12",
       "feature-13", "feature-14", "feature-15", "feature-16", "feature-17", "feature-18",
       "feature-19", "feature-20", "feature-21", "feature-22", "feature-23", "feature-24",
       "feature-25", "feature-26", "feature-27", "feature-28"] := by decide
    exact hp.imp (fun h => String.le_iff_toList_le.mpr h)

/-- C10 witness: the feature view contains no label column on a concrete
run. -/
theorem C10_feature_view_columns_witness :
    Event.buildMatrix X_columns "label" ∈
      (using_quantile_device_dmatrix envOk "d" "m" false true).trace :=
  C10_feature_view_columns.1 envOk "d" "m" false true
